import Mathlib

/-!
Verification of the SÚKL API proxy (`app/search_client.py`,
`app/routes/drugs.py`, `app/routes/pharmacies.py`, `app/routes/documents.py`).

The development shallowly embeds the pure cores of the program:
the OData filter builders, the drug-detail key normalisation, the
document-chunk normalisation, and the retry/backoff loops of the search
client.  Python strings are modelled as Lean `String` (lists of unicode
characters); the string helpers `strip`, `upper`, `lower`, `zfill`,
`isdigit` and `replace` are embedded for the ASCII inputs the routes deal
with.  Stateful / IO behaviour (the retry loops, token refresh) is
embedded as explicit state passing: one attempt of the HTTP call becomes
an `Outcome` value, a whole logical call a function `Nat → Outcome`, and
the loop returns alongside its result the exact list of back-off sleeps
it performed and the number of attempts it made.  Raised exceptions
become explicit error results.
-/

/-- The single-quote character, used by the OData escaping code. -/
def qc : Char := '\''

/-- Characters Python's `str.strip()` removes (ASCII whitespace). -/
def pyIsSpace (c : Char) : Bool :=
  c = ' ' || c = '\t' || c = '\n' || c = '\r' || c = '\x0b' || c = '\x0c'

/-- Embedding of Python `s.strip()`. -/
def pyStrip (s : String) : String :=
  String.mk (((s.data.dropWhile pyIsSpace).reverse.dropWhile pyIsSpace).reverse)

/-- Embedding of Python `s.upper()` (ASCII range). -/
def pyUpper (s : String) : String := String.mk (s.data.map Char.toUpper)

/-- Embedding of Python `s.lower()` (ASCII range). -/
def pyLower (s : String) : String := String.mk (s.data.map Char.toLower)

/-- ASCII decimal digit test, for Python `str.isdigit()`. -/
def pyIsDigit (c : Char) : Bool := '0' ≤ c && c ≤ '9'

/-- Embedding of Python `s.isdigit()` (ASCII): nonempty and all digits. -/
def pyIsDigitStr (s : String) : Bool := !s.data.isEmpty && s.data.all pyIsDigit

/-- Python truthiness of an optional string parameter (`if atc:`):
`None` and the empty string are falsy. -/
def pyTruthy (o : Option String) : Bool := !(o.getD "").data.isEmpty

/-- Quote-doubling on the character list: each `'` becomes `''`. -/
def escQuotes : List Char → List Char
  | [] => []
  | c :: cs => (if c = qc then [qc, qc] else [c]) ++ escQuotes cs

/-- Embedding of Python `s.replace("'", "''")`. -/
def pyEscapeQuotes (s : String) : String := String.mk (escQuotes s.data)

/-- Embedding of Python `s.zfill(width)`: pad with `'0'` on the left up to
`width`, inserting the zeros after a leading `'+'`/`'-'` sign. -/
def pyZfill (s : String) (width : Nat) : String :=
  if width ≤ s.length then s
  else
    let pad := List.replicate (width - s.length) '0'
    match s.data with
    | c :: rest => if c = '+' || c = '-' then String.mk (c :: (pad ++ rest))
                   else String.mk (pad ++ (c :: rest))
    | [] => String.mk pad

/-- First-match association lookup, embedding `dict.get` on the fixed
string→code tables of the routes. -/
def lookupMap (m : List (String × String)) (k : String) : Option String :=
  (m.find? (fun p => p.1 == k)).map (fun p => p.2)

/-- `DISPENSING_MAP` from `app/routes/drugs.py`. -/
def DISPENSING_MAP : List (String × String) :=
  [("prescription", "R"), ("otc", "F"), ("restricted", "L"),
   ("reserved", "V"), ("otc-restricted", "P")]

/-- `PHARMACY_TYPE_MAP` from `app/routes/pharmacies.py`. -/
def PHARMACY_TYPE_MAP : List (String × String) :=
  [("pharmacy", "Z"), ("hospital", "NO"), ("outlet", "V")]

/-- `re.fullmatch(r"[A-Z0-9]+", s)` as a boolean. -/
def matchesAtcClass (s : String) : Bool :=
  !s.data.isEmpty && s.data.all (fun c => ('A' ≤ c && c ≤ 'Z') || ('0' ≤ c && c ≤ '9'))

/-- The ATC branch of `_build_drug_filters` (`app/routes/drugs.py`,
lines 159–168): strip+uppercase, drop on character-class failure, prefix
`ismatch` below 7 characters, exact equality otherwise. -/
def atcClause (atc : Option String) : List String :=
  if pyTruthy atc then
    let atcClean := pyUpper (pyStrip (atc.getD ""))
    if !matchesAtcClass atcClean then []
    else if atcClean.length < 7 then ["search.ismatch('" ++ atcClean ++ "*', 'atc')"]
    else ["atc eq '" ++ atcClean ++ "'"]
  else []

/-- The holder branch of `_build_drug_filters` (lines 170–174). -/
def holderClause (holder : Option String) : List String :=
  if pyTruthy holder then
    ["search.ismatch('" ++ pyEscapeQuotes (holder.getD "") ++ "', 'drzitelNazev')"]
  else []

/-- The dispensing branch of `_build_drug_filters` (lines 176–179). -/
def dispensingClause (dispensing : Option String) : List String :=
  if pyTruthy dispensing then
    match lookupMap DISPENSING_MAP (pyLower (dispensing.getD "")) with
    | some code => ["vydej eq '" ++ code ++ "'"]
    | none => []
  else []

/-- The doping branch of `_build_drug_filters` (lines 181–182);
`str(doping).lower()` is `true`/`false`. -/
def dopingClause : Option Bool → List String
  | some b => ["doping eq " ++ (if b then "true" else "false")]
  | none => []

/-- The availability branch of `_build_drug_filters` (lines 184–188). -/
def availableClause : Option Bool → List String
  | some true => ["dodavky eq '1'"]
  | some false => ["dodavky eq '0'"]
  | none => []

/-- The form branch of `_build_drug_filters` (lines 190–192). -/
def formClause (form : Option String) : List String :=
  if pyTruthy form then
    ["search.ismatch('" ++ pyEscapeQuotes (form.getD "") ++ "', 'formaNazev')"]
  else []

/-- `" and ".join(parts) if parts else None`. -/
def joinFilterParts (parts : List String) : Option String :=
  if parts.isEmpty then none else some (String.intercalate " and " parts)

/-- `_build_drug_filters` from `app/routes/drugs.py`, with the clauses in
the source's append order. -/
def buildDrugFilters (atc holder dispensing : Option String)
    (doping available : Option Bool) (form : Option String) : Option String :=
  joinFilterParts (atcClause atc ++ holderClause holder ++ dispensingClause dispensing
    ++ dopingClause doping ++ availableClause available ++ formClause form)

/-- The city branch of `_build_pharmacy_filters` (`app/routes/pharmacies.py`,
lines 147–149): quote-escaped exact equality on `mesto`. -/
def cityClause (city : Option String) : List String :=
  if pyTruthy city then ["mesto eq '" ++ pyEscapeQuotes (city.getD "") ++ "'"] else []

/-- The emergency branch of `_build_pharmacy_filters` (lines 151–152). -/
def emergencyClause : Option Bool → List String
  | some b => ["pohotovost eq " ++ (if b then "true" else "false")]
  | none => []

/-- The mail-order branch of `_build_pharmacy_filters` (lines 154–155). -/
def mailOrderClause : Option Bool → List String
  | some b => ["zasilkovyProdej eq " ++ (if b then "true" else "false")]
  | none => []

/-- The pharmacy-type branch of `_build_pharmacy_filters` (lines 157–160). -/
def typeClause (pharmacyType : Option String) : List String :=
  if pyTruthy pharmacyType then
    match lookupMap PHARMACY_TYPE_MAP (pyLower (pharmacyType.getD "")) with
    | some code => ["typLekarny eq '" ++ code ++ "'"]
    | none => []
  else []

/-- The postal-code branch of `_build_pharmacy_filters` (lines 162–164):
note the source escapes first and strips afterwards. -/
def postalClause (postalCode : Option String) : List String :=
  if pyTruthy postalCode then
    ["psc eq '" ++ pyStrip (pyEscapeQuotes (postalCode.getD "")) ++ "'"]
  else []

/-- `_build_pharmacy_filters` from `app/routes/pharmacies.py`. -/
def buildPharmacyFilters (city : Option String) (emergency mailOrder : Option Bool)
    (pharmacyType postalCode : Option String) : Option String :=
  joinFilterParts (cityClause city ++ emergencyClause emergency
    ++ mailOrderClause mailOrder ++ typeClause pharmacyType ++ postalClause postalCode)

/-- What the pharmacy search endpoint decides to do before any network
I/O: reject with 400 or run a backend query. -/
inductive PharmacySearchAction where
  | badRequest
  | query (searchText : String) (filters : Option String) (queryType : String)
deriving DecidableEq

/-- The front of `search_pharmacies` (`app/routes/pharmacies.py`,
lines 53–71): the at-least-one-criterion check uses Python truthiness
(`not q and not city and not emergency and ...`), so `Some false`
booleans count as absent; then `search_text = q or "*"`,
the filter build, and `query_type = "semantic" if q else "simple"`. -/
def searchPharmaciesAction (q city : Option String) (emergency mailOrder : Option Bool)
    (pharmacyType postalCode : Option String) : PharmacySearchAction :=
  if !pyTruthy q && !pyTruthy city && !(emergency.getD false) && !(mailOrder.getD false)
      && !pyTruthy pharmacyType && !pyTruthy postalCode then
    PharmacySearchAction.badRequest
  else
    PharmacySearchAction.query
      (if pyTruthy q then q.getD "" else "*")
      (buildPharmacyFilters city emergency mailOrder pharmacyType postalCode)
      (if pyTruthy q then "semantic" else "simple")

/-- What the drug-detail endpoint does with the path key before any
network I/O: reject with 400, or look the document up under `key`. -/
inductive DetailAction where
  | badRequest
  | lookupKey (key : String)
deriving DecidableEq

/-- The key handling of `get_drug_detail` (`app/routes/drugs.py`,
lines 107–115): `key = kod_sukl.strip().zfill(7)`, then 400 when
`not key.isdigit()`, otherwise the backend is consulted under `key`. -/
def getDrugDetailAction (kodSukl : String) : DetailAction :=
  let key := pyZfill (pyStrip kodSukl) 7
  if !pyIsDigitStr key then DetailAction.badRequest else DetailAction.lookupKey key

/-- A raw document-chunk hit, the fields `search_documents` reads with
`doc.get(..., "")` (semantic captions and reranker score are carried by
separate keys not involved in the truncation policy). -/
structure RawDoc where
  chunk : Option String
  title : Option String
  drug_codes : Option String
deriving DecidableEq

/-- The normalized entry built per document by `search_documents`. -/
structure DocEntry where
  title : String
  drugCodes : String
  content : String
deriving DecidableEq

/-- The per-document normalisation of `search_documents`
(`app/routes/documents.py`, lines 40–50): content longer than 2000
characters becomes the first 2000 characters plus one ellipsis
character. -/
def formatDocEntry (doc : RawDoc) : DocEntry :=
  let chunkText := doc.chunk.getD ""
  let chunkText := if 2000 < chunkText.length
    then String.mk (chunkText.data.take 2000) ++ "…" else chunkText
  { title := doc.title.getD "", drugCodes := doc.drug_codes.getD "", content := chunkText }

/-- Retry configuration from `app/search_client.py`, lines 12–18. -/
def MAX_RETRIES : Nat := 3

/-- `RETRY_DELAYS = [1.0, 3.0, 8.0]`, modelled over `ℚ` (the values are
exact). -/
def RETRY_DELAYS : List ℚ := [1, 3, 8]

/-- `RETRYABLE_STATUS = {408, 429, 500, 502, 503, 504}`. -/
def RETRYABLE_STATUS : List Nat := [408, 429, 500, 502, 503, 504]

/-- `SearchError(status, detail)` from `app/search_client.py`. -/
structure SearchError where
  status : Nat
  detail : String
deriving DecidableEq

/-- What one HTTP attempt can come back with: a response (status plus
body text), an `httpx.TimeoutException`, or another `httpx.HTTPError`. -/
inductive Outcome where
  | response (status : Nat) (body : String)
  | timeout
  | netError (msg : String)
deriving DecidableEq

/-- Result of `_post_with_retry`: decoded body or raised `SearchError`. -/
inductive PostResult where
  | ok (body : String)
  | err (e : SearchError)
deriving DecidableEq

/-- Result of `_get_with_retry`: decoded body, the `None` not-found
sentinel, or a raised `SearchError`. -/
inductive GetResult where
  | ok (body : String)
  | notFound
  | err (e : SearchError)
deriving DecidableEq

/-- A run of the POST retry loop: its result, the back-off sleeps it
performed in order, and the number of attempts it made. -/
structure PostTrace where
  result : PostResult
  sleeps : List ℚ
  attempts : Nat
deriving DecidableEq

/-- A run of the GET retry loop. -/
structure GetTrace where
  result : GetResult
  sleeps : List ℚ
  attempts : Nat
deriving DecidableEq

/-- `_post_with_retry` (`app/search_client.py`, lines 159–209), the
`for attempt in range(MAX_RETRIES)` loop: 200 returns; a retryable
status records the failure and sleeps `RETRY_DELAYS[attempt]`
unconditionally before continuing; any other status raises at once; a
timeout records a synthetic 504 and a transport error a synthetic 502,
each sleeping only when `attempt < MAX_RETRIES - 1`; an exhausted loop
raises the recorded failure, or 500 "All retries exhausted" if none. -/
def postLoop (get : Nat → Outcome) : List Nat → Option SearchError → List ℚ → Nat → PostTrace
  | [], lastError, sleeps, attempts =>
      ⟨PostResult.err (lastError.getD ⟨500, "All retries exhausted"⟩), sleeps, attempts⟩
  | attempt :: rest, lastError, sleeps, attempts =>
      match get attempt with
      | Outcome.response s body =>
          if s = 200 then ⟨PostResult.ok body, sleeps, attempts + 1⟩
          else if s ∈ RETRYABLE_STATUS then
            postLoop get rest (some ⟨s, body⟩)
              (sleeps ++ [RETRY_DELAYS.getD attempt 0]) (attempts + 1)
          else ⟨PostResult.err ⟨s, body⟩, sleeps, attempts + 1⟩
      | Outcome.timeout =>
          postLoop get rest (some ⟨504, "Request timeout"⟩)
            (if attempt < MAX_RETRIES - 1 then sleeps ++ [RETRY_DELAYS.getD attempt 0] else sleeps)
            (attempts + 1)
      | Outcome.netError msg =>
          postLoop get rest (some ⟨502, msg⟩)
            (if attempt < MAX_RETRIES - 1 then sleeps ++ [RETRY_DELAYS.getD attempt 0] else sleeps)
            (attempts + 1)

/-- A whole `_post_with_retry` call on the attempt outcomes `get`. -/
def postRun (get : Nat → Outcome) : PostTrace :=
  postLoop get (List.range MAX_RETRIES) none [] 0

/-- `_get_with_retry` (`app/search_client.py`, lines 211–262): identical
to the POST loop except that status 404 returns the `None` sentinel. -/
def getLoop (get : Nat → Outcome) : List Nat → Option SearchError → List ℚ → Nat → GetTrace
  | [], lastError, sleeps, attempts =>
      ⟨GetResult.err (lastError.getD ⟨500, "All retries exhausted"⟩), sleeps, attempts⟩
  | attempt :: rest, lastError, sleeps, attempts =>
      match get attempt with
      | Outcome.response s body =>
          if s = 200 then ⟨GetResult.ok body, sleeps, attempts + 1⟩
          else if s = 404 then ⟨GetResult.notFound, sleeps, attempts + 1⟩
          else if s ∈ RETRYABLE_STATUS then
            getLoop get rest (some ⟨s, body⟩)
              (sleeps ++ [RETRY_DELAYS.getD attempt 0]) (attempts + 1)
          else ⟨GetResult.err ⟨s, body⟩, sleeps, attempts + 1⟩
      | Outcome.timeout =>
          getLoop get rest (some ⟨504, "Request timeout"⟩)
            (if attempt < MAX_RETRIES - 1 then sleeps ++ [RETRY_DELAYS.getD attempt 0] else sleeps)
            (attempts + 1)
      | Outcome.netError msg =>
          getLoop get rest (some ⟨502, msg⟩)
            (if attempt < MAX_RETRIES - 1 then sleeps ++ [RETRY_DELAYS.getD attempt 0] else sleeps)
            (attempts + 1)

/-- A whole `_get_with_retry` call on the attempt outcomes `get`. -/
def getRun (get : Nat → Outcome) : GetTrace :=
  getLoop get (List.range MAX_RETRIES) none [] 0

/-- Result of a logical `SearchClient.search` call: decoded body, a
credential-acquisition failure (an exception raised by
`DefaultAzureCredential.get_token` inside `_refresh_token`, before the
retry loop is entered), or an upstream `SearchError`. -/
inductive CallResult where
  | ok (body : String)
  | authFailure (msg : String)
  | upstream (e : SearchError)
deriving DecidableEq

/-- Observable trace of one logical `search` call: the token stored on
the client afterwards, the result, the sleeps and the attempt count. -/
structure CallTrace where
  newToken : Option String
  result : CallResult
  sleeps : List ℚ
  attempts : Nat
deriving DecidableEq

/-- Lift the retry-loop result into the logical-call result. -/
def liftPostResult : PostResult → CallResult
  | PostResult.ok b => CallResult.ok b
  | PostResult.err e => CallResult.upstream e

/-- `SearchClient.search` (`app/search_client.py`, lines 51–91):
`_refresh_token()` runs unconditionally before `_post_with_retry`,
whatever token (`prevToken`) the client already holds.  `cred` is the
outcome of this call's `get_token`: an exception there propagates before
any attempt or sleep; on success the fresh token is stored and the retry
loop runs. -/
def searchCall (prevToken : Option String) (cred : Except String String)
    (get : Nat → Outcome) : CallTrace :=
  match cred with
  | Except.error msg => ⟨prevToken, CallResult.authFailure msg, [], 0⟩
  | Except.ok tok =>
      ⟨some tok, liftPostResult (postRun get).result, (postRun get).sleeps, (postRun get).attempts⟩

/-- An attempt outcome on which the retry loops neither return nor raise
immediately: a retryable status, a timeout, or a transport error.
(200 and 404 are not in `RETRYABLE_STATUS`.) -/
def loopContinues : Outcome → Bool
  | Outcome.response s _ => decide (s ∈ RETRYABLE_STATUS)
  | Outcome.timeout => true
  | Outcome.netError _ => true

/-- The `last_error` the loops record for a loop-continuing outcome:
the response's status and text, or the synthetic 504/502 errors. -/
def recordedError : Outcome → SearchError
  | Outcome.response s body => ⟨s, body⟩
  | Outcome.timeout => ⟨504, "Request timeout"⟩
  | Outcome.netError msg => ⟨502, msg⟩

section helperLemmas

lemma range_mr : List.range MAX_RETRIES = [0, 1, 2] := rfl

lemma length_mk (l : List Char) : (String.mk l).length = l.length := rfl

lemma joinFilterParts_one (x : String) : joinFilterParts [x] = some x := rfl

lemma pyTruthy_some {s : String} (h : s ≠ "") : pyTruthy (some s) = true := by
  cases s with
  | mk l =>
    cases l with
    | nil => exact absurd rfl h
    | cons c cs => rfl

lemma mem_retryable_ne {s : Nat} (h : s ∈ RETRYABLE_STATUS) : s ≠ 200 ∧ s ≠ 404 := by
  constructor <;> rintro rfl <;> revert h <;> decide

lemma postLoop_step (get : Nat → Outcome) (a : Nat) (rest : List Nat)
    (le : Option SearchError) (sl : List ℚ) (att : Nat)
    (h : loopContinues (get a) = true) :
    ∃ sl2, postLoop get (a :: rest) le sl att
      = postLoop get rest (some (recordedError (get a))) sl2 (att + 1) := by
  cases hga : get a with
  | response s body =>
      rw [hga] at h
      have hmem : s ∈ RETRYABLE_STATUS := by simpa [loopContinues] using h
      have h200 := (mem_retryable_ne hmem).1
      exact ⟨sl ++ [RETRY_DELAYS.getD a 0], by simp [postLoop, hga, h200, hmem, recordedError]⟩
  | timeout =>
      exact ⟨if a < MAX_RETRIES - 1 then sl ++ [RETRY_DELAYS.getD a 0] else sl,
        by simp [postLoop, hga, recordedError]⟩
  | netError msg =>
      exact ⟨if a < MAX_RETRIES - 1 then sl ++ [RETRY_DELAYS.getD a 0] else sl,
        by simp [postLoop, hga, recordedError]⟩

lemma getLoop_step (get : Nat → Outcome) (a : Nat) (rest : List Nat)
    (le : Option SearchError) (sl : List ℚ) (att : Nat)
    (h : loopContinues (get a) = true) :
    ∃ sl2, getLoop get (a :: rest) le sl att
      = getLoop get rest (some (recordedError (get a))) sl2 (att + 1) := by
  cases hga : get a with
  | response s body =>
      rw [hga] at h
      have hmem : s ∈ RETRYABLE_STATUS := by simpa [loopContinues] using h
      have h200 := (mem_retryable_ne hmem).1
      have h404 := (mem_retryable_ne hmem).2
      exact ⟨sl ++ [RETRY_DELAYS.getD a 0],
        by simp [getLoop, hga, h200, h404, hmem, recordedError]⟩
  | timeout =>
      exact ⟨if a < MAX_RETRIES - 1 then sl ++ [RETRY_DELAYS.getD a 0] else sl,
        by simp [getLoop, hga, recordedError]⟩
  | netError msg =>
      exact ⟨if a < MAX_RETRIES - 1 then sl ++ [RETRY_DELAYS.getD a 0] else sl,
        by simp [getLoop, hga, recordedError]⟩

end helperLemmas

/-- C1 counterexample: the claim says the backoff schedule has exactly
`max_attempts − 1 = 2` entries and that a POST answered 500 on all 3
attempts sleeps exactly twice.  In the code `RETRY_DELAYS` has 3 entries
and the retryable-status branch of `_post_with_retry` sleeps
unconditionally — also after the final attempt — so that run sleeps
three times (1s, 3s, 8s). -/
theorem C1_backoff_counterexample :
    RETRY_DELAYS.length ≠ MAX_RETRIES - 1 ∧
    (postRun (fun _ => Outcome.response 500 "Internal Server Error")).sleeps.length ≠ 2 ∧
    (postRun (fun _ => Outcome.response 500 "Internal Server Error")).sleeps = [1, 3, 8] := by
  decide

/-- C1 amended: the backoff schedule is 1s, 3s, 8s (exactly
`max_attempts = 3` entries); on a retryable status a sleep follows every
failed attempt, the final one included, so a POST answered 500 on all 3
attempts makes 3 attempts, sleeps exactly three times (1s, 3s, 8s), and
raises a failure carrying status 500 and the last response's detail. -/
theorem C1_backoff_amended (detail : Nat → String) :
    RETRY_DELAYS = [1, 3, 8] ∧ RETRY_DELAYS.length = MAX_RETRIES ∧
    postRun (fun i => Outcome.response 500 (detail i))
      = ⟨PostResult.err ⟨500, detail 2⟩, [1, 3, 8], 3⟩ :=
  ⟨rfl, rfl, rfl⟩

/-- C4: a first-attempt response whose status is neither 200 nor in the
retryable set (and, for the GET loop, not 404 either) makes exactly one
attempt, sleeps never, and raises a failure carrying that status and
body at once. -/
theorem C4_nonretryable_immediate (s : Nat) (body : String) (get : Nat → Outcome)
    (h0 : get 0 = Outcome.response s body) (h200 : s ≠ 200) (hr : s ∉ RETRYABLE_STATUS) :
    postRun get = ⟨PostResult.err ⟨s, body⟩, [], 1⟩ ∧
    (s ≠ 404 → getRun get = ⟨GetResult.err ⟨s, body⟩, [], 1⟩) := by
  constructor
  · show postLoop get (List.range MAX_RETRIES) none [] 0 = _
    rw [range_mr]
    simp [postLoop, h0, h200, hr]
  · intro h404
    show getLoop get (List.range MAX_RETRIES) none [] 0 = _
    rw [range_mr]
    simp [getLoop, h0, h200, h404, hr]

/-- C4 witness: a 400 on the first attempt is raised at once by both
loops, with one attempt and no sleep. -/
theorem C4_nonretryable_immediate_witness :
    postRun (fun _ => Outcome.response 400 "Bad Request")
      = ⟨PostResult.err ⟨400, "Bad Request"⟩, [], 1⟩ ∧
    getRun (fun _ => Outcome.response 400 "Bad Request")
      = ⟨GetResult.err ⟨400, "Bad Request"⟩, [], 1⟩ := by
  have h := C4_nonretryable_immediate 400 "Bad Request"
    (fun _ => Outcome.response 400 "Bad Request") rfl (by decide) (by decide)
  exact ⟨h.1, h.2 (by decide)⟩

/-- C5: a 404 on the first attempt of the GET-by-key loop returns the
not-found sentinel after exactly one attempt with no sleep; the sentinel
is a constructor distinct from both success and failure. -/
theorem C5_notfound_sentinel (body : String) (get : Nat → Outcome)
    (h0 : get 0 = Outcome.response 404 body) :
    getRun get = ⟨GetResult.notFound, [], 1⟩ ∧
    (∀ b, GetResult.notFound ≠ GetResult.ok b) ∧
    (∀ e, GetResult.notFound ≠ GetResult.err e) := by
  refine ⟨?_, fun b => by simp, fun e => by simp⟩
  show getLoop get (List.range MAX_RETRIES) none [] 0 = _
  rw [range_mr]
  simp [getLoop, h0]

/-- C5 witness: the sentinel at a concrete 404 response. -/
theorem C5_notfound_sentinel_witness :
    getRun (fun _ => Outcome.response 404 "Not Found") = ⟨GetResult.notFound, [], 1⟩ :=
  (C5_notfound_sentinel "Not Found" (fun _ => Outcome.response 404 "Not Found") rfl).1

/-- C6: when all three attempts of a loop yield loop-continuing outcomes
(retryable status, timeout, or transport error), the raised failure is
the one recorded from the last attempt; and a loop that somehow reaches
exhaustion with nothing recorded raises the generic 500
"All retries exhausted" failure. -/
theorem C6_exhaustion (get : Nat → Outcome)
    (h0 : loopContinues (get 0) = true) (h1 : loopContinues (get 1) = true)
    (h2 : loopContinues (get 2) = true) :
    (postRun get).result = PostResult.err (recordedError (get 2)) ∧
    (getRun get).result = GetResult.err (recordedError (get 2)) ∧
    postLoop get [] none [] MAX_RETRIES
      = ⟨PostResult.err ⟨500, "All retries exhausted"⟩, [], MAX_RETRIES⟩ ∧
    getLoop get [] none [] MAX_RETRIES
      = ⟨GetResult.err ⟨500, "All retries exhausted"⟩, [], MAX_RETRIES⟩ := by
  refine ⟨?_, ?_, rfl, rfl⟩
  · show (postLoop get (List.range MAX_RETRIES) none [] 0).result = _
    rw [range_mr]
    obtain ⟨s1, e1⟩ := postLoop_step get 0 [1, 2] none [] 0 h0
    obtain ⟨s2, e2⟩ := postLoop_step get 1 [2] (some (recordedError (get 0))) s1 1 h1
    obtain ⟨s3, e3⟩ := postLoop_step get 2 [] (some (recordedError (get 1))) s2 2 h2
    rw [e1, e2, e3]
    rfl
  · show (getLoop get (List.range MAX_RETRIES) none [] 0).result = _
    rw [range_mr]
    obtain ⟨s1, e1⟩ := getLoop_step get 0 [1, 2] none [] 0 h0
    obtain ⟨s2, e2⟩ := getLoop_step get 1 [2] (some (recordedError (get 0))) s1 1 h1
    obtain ⟨s3, e3⟩ := getLoop_step get 2 [] (some (recordedError (get 1))) s2 2 h2
    rw [e1, e2, e3]
    rfl

/-- C6 witness: three timeouts raise the synthetic 504 recorded on the
last attempt. -/
theorem C6_exhaustion_witness :
    (postRun (fun _ => Outcome.timeout)).result = PostResult.err ⟨504, "Request timeout"⟩ ∧
    (getRun (fun _ => Outcome.timeout)).result = GetResult.err ⟨504, "Request timeout"⟩ := by
  have h := C6_exhaustion (fun _ => Outcome.timeout) rfl rfl rfl
  exact ⟨h.1, h.2.1⟩

/-- C7: a logical `search` call acquires its bearer credential fresh
before the retry loop: when acquisition fails the failure surfaces as
`authFailure` with zero attempts and zero sleeps (never retried, never
backed off), when it succeeds the token attached afterwards is exactly
this call's fresh token, and in either case the call's behaviour is
independent of whatever token an earlier call left behind. -/
theorem C7_fresh_token (prev : Option String) (cred : Except String String)
    (get : Nat → Outcome) :
    (∀ msg, cred = Except.error msg →
      (searchCall prev cred get).result = CallResult.authFailure msg ∧
      (searchCall prev cred get).sleeps = [] ∧
      (searchCall prev cred get).attempts = 0) ∧
    (∀ tok, cred = Except.ok tok → (searchCall prev cred get).newToken = some tok) ∧
    (searchCall prev cred get).result = (searchCall none cred get).result ∧
    (searchCall prev cred get).sleeps = (searchCall none cred get).sleeps ∧
    (searchCall prev cred get).attempts = (searchCall none cred get).attempts := by
  cases cred with
  | error msg =>
      refine ⟨?_, ?_, rfl, rfl, rfl⟩
      · intro m hm
        injection hm with h
        subst h
        exact ⟨rfl, rfl, rfl⟩
      · intro t ht
        exact absurd ht (by simp)
  | ok tok =>
      refine ⟨?_, ?_, rfl, rfl, rfl⟩
      · intro m hm
        exact absurd hm (by simp)
      · intro t ht
        injection ht with h
        subst h
        rfl

/-- C7 witness: a concrete failed acquisition surfaces immediately with
no attempts and no sleeps, and a concrete successful acquisition stores
the fresh token over the cached one. -/
theorem C7_fresh_token_witness :
    (searchCall (some "cached-token") (Except.error "credential unavailable")
        (fun _ => Outcome.timeout)).result = CallResult.authFailure "credential unavailable" ∧
    (searchCall (some "cached-token") (Except.error "credential unavailable")
        (fun _ => Outcome.timeout)).sleeps = [] ∧
    (searchCall (some "cached-token") (Except.error "credential unavailable")
        (fun _ => Outcome.timeout)).attempts = 0 ∧
    (searchCall (some "old-token") (Except.ok "fresh-token")
        (fun _ => Outcome.response 200 "body")).newToken = some "fresh-token" := by
  have h1 := (C7_fresh_token (some "cached-token") (Except.error "credential unavailable")
    (fun _ => Outcome.timeout)).1 "credential unavailable" rfl
  have h2 := (C7_fresh_token (some "old-token") (Except.ok "fresh-token")
    (fun _ => Outcome.response 200 "body")).2.1 "fresh-token" rfl
  exact ⟨h1.1, h1.2.1, h1.2.2, h2⟩

section filterHelperLemmas

lemma strLength_data (s : String) : s.length = s.data.length := by
  cases s
  rfl

lemma atcClause_none : atcClause none = [] := rfl

lemma holderClause_none : holderClause none = [] := rfl

lemma dispensingClause_none : dispensingClause none = [] := rfl

lemma dopingClause_none : dopingClause none = [] := rfl

lemma availableClause_none : availableClause none = [] := rfl

lemma formClause_none : formClause none = [] := rfl

lemma joinFilterParts_nil : joinFilterParts [] = none := rfl

lemma cityClause_none : cityClause none = [] := rfl

lemma emergencyClause_none : emergencyClause none = [] := rfl

lemma mailOrderClause_none : mailOrderClause none = [] := rfl

lemma typeClause_none : typeClause none = [] := rfl

lemma postalClause_none : postalClause none = [] := rfl

lemma escQuotes_count (l : List Char) : (escQuotes l).count qc = 2 * l.count qc := by
  induction l with
  | nil => rfl
  | cons c cs ih =>
      by_cases hcq : c = qc
      · subst hcq
        simp [escQuotes, List.count_append, List.count_cons, ih]
        ring
      · simp [escQuotes, hcq, List.count_append, List.count_cons, Ne.symm hcq, ih]

lemma buildDrug_atc_only (a : Option String) :
    buildDrugFilters a none none none none none = joinFilterParts (atcClause a) := by
  simp [buildDrugFilters, holderClause_none, dispensingClause_none, dopingClause_none,
    availableClause_none, formClause_none]

end filterHelperLemmas

/-- C2 counterexample: the claim says the pharmacy city value is wrapped
in a `search.ismatch` predicate; `_build_pharmacy_filters` actually
emits an exact-equality clause `mesto eq '...'` for the city (the quote
doubling does happen). -/
theorem C2_city_counterexample :
    buildPharmacyFilters (some "O'Brien") none none none none
      = some "mesto eq 'O''Brien'" ∧
    ("mesto eq 'O''Brien'" : String) ≠ "search.ismatch('O''Brien', 'mesto')" := by
  decide

/-- C2 amended: the marketing-authorisation holder name and the dosage
form are wrapped in `search.ismatch` predicates against their fields
with every single quote doubled; the pharmacy city value gets the same
quote doubling but is emitted as the exact-equality clause
`mesto eq '...'`; and quote doubling means the escaped value holds
exactly twice as many single quotes as the input. -/
theorem C2_quote_escaping_amended (h f c : String)
    (hh : h ≠ "") (hf : f ≠ "") (hc : c ≠ "") :
    buildDrugFilters none (some h) none none none none
      = some ("search.ismatch('" ++ pyEscapeQuotes h ++ "', 'drzitelNazev')") ∧
    buildDrugFilters none none none none none (some f)
      = some ("search.ismatch('" ++ pyEscapeQuotes f ++ "', 'formaNazev')") ∧
    buildPharmacyFilters (some c) none none none none
      = some ("mesto eq '" ++ pyEscapeQuotes c ++ "'") ∧
    (∀ s : String, (pyEscapeQuotes s).data.count qc = 2 * s.data.count qc) := by
  refine ⟨?_, ?_, ?_, fun s => escQuotes_count s.data⟩
  · simp [buildDrugFilters, atcClause_none, dispensingClause_none, dopingClause_none,
      availableClause_none, formClause_none, holderClause, pyTruthy_some hh,
      joinFilterParts_one]
  · simp [buildDrugFilters, atcClause_none, holderClause_none, dispensingClause_none,
      dopingClause_none, availableClause_none, formClause, pyTruthy_some hf,
      joinFilterParts_one]
  · simp [buildPharmacyFilters, emergencyClause_none, mailOrderClause_none,
      typeClause_none, postalClause_none, cityClause, pyTruthy_some hc,
      joinFilterParts_one]

/-- C2 witness: for the value `O'Brien` the three emitted clauses
contain `O''Brien`. -/
theorem C2_quote_escaping_witness :
    buildDrugFilters none (some "O'Brien") none none none none
      = some "search.ismatch('O''Brien', 'drzitelNazev')" ∧
    buildDrugFilters none none none none none (some "O'Brien")
      = some "search.ismatch('O''Brien', 'formaNazev')" ∧
    buildPharmacyFilters (some "O'Brien") none none none none
      = some "mesto eq 'O''Brien'" := by
  have h := C2_quote_escaping_amended "O'Brien" "O'Brien" "O'Brien"
    (by decide) (by decide) (by decide)
  refine ⟨?_, ?_, ?_⟩
  · rw [h.1]; decide
  · rw [h.2.1]; decide
  · rw [h.2.2.1]; decide

/-- C3: after strip and uppercase normalisation of the ATC parameter, a
value matching `[A-Z0-9]+` of length at least 7 yields the
exact-equality clause, one of length below 7 yields the prefix
`search.ismatch` clause with a trailing wildcard, and a value failing
the character class yields no clause at all (the filter is `None`, no
error). -/
theorem C3_atc_clause (atc : String) :
    (matchesAtcClass (pyUpper (pyStrip atc)) = true → 7 ≤ (pyUpper (pyStrip atc)).length →
      buildDrugFilters (some atc) none none none none none
        = some ("atc eq '" ++ pyUpper (pyStrip atc) ++ "'")) ∧
    (matchesAtcClass (pyUpper (pyStrip atc)) = true → (pyUpper (pyStrip atc)).length < 7 →
      buildDrugFilters (some atc) none none none none none
        = some ("search.ismatch('" ++ pyUpper (pyStrip atc) ++ "*', 'atc')")) ∧
    (matchesAtcClass (pyUpper (pyStrip atc)) = false →
      buildDrugFilters (some atc) none none none none none = none) := by
  refine ⟨?_, ?_, ?_⟩
  · intro hm h7
    have hne : atc ≠ "" := by
      rintro rfl
      exact absurd hm (by decide)
    rw [buildDrug_atc_only]
    simp [atcClause, pyTruthy_some hne, hm, Nat.not_lt.mpr h7, joinFilterParts_one]
  · intro hm h7
    have hne : atc ≠ "" := by
      rintro rfl
      exact absurd hm (by decide)
    rw [buildDrug_atc_only]
    simp [atcClause, pyTruthy_some hne, hm, h7, joinFilterParts_one]
  · intro hm
    by_cases hne : atc = ""
    · subst hne
      rfl
    · rw [buildDrug_atc_only]
      simp [atcClause, pyTruthy_some hne, hm, joinFilterParts_nil]

/-- C3 witness: a lowercase full-length code, a short prefix code, and a
code with a character outside the class. -/
theorem C3_atc_clause_witness :
    buildDrugFilters (some " n02be01 ") none none none none none
      = some "atc eq 'N02BE01'" ∧
    buildDrugFilters (some "N02") none none none none none
      = some "search.ismatch('N02*', 'atc')" ∧
    buildDrugFilters (some "N02$") none none none none none = none := by
  refine ⟨?_, ?_, ?_⟩
  · have h := (C3_atc_clause " n02be01 ").1 (by decide) (by decide)
    rw [h]; decide
  · have h := (C3_atc_clause "N02").2.1 (by decide) (by decide)
    rw [h]; decide
  · exact (C3_atc_clause "N02$").2.2 (by decide)

/-- C9: the pharmacy search endpoint's at-least-one-criterion check uses
Python truthiness, so a request whose only provided criterion is
`emergency=false` or `mailOrder=false` is rejected with the 400 bad
request, even though `false` is a meaningful tri-state filter value
(`_build_pharmacy_filters` would emit `pohotovost eq false` /
`zasilkovyProdej eq false`); the `true` value is accepted. -/
theorem C9_false_boolean_rejected :
    searchPharmaciesAction none none (some false) none none none
      = PharmacySearchAction.badRequest ∧
    searchPharmaciesAction none none none (some false) none none
      = PharmacySearchAction.badRequest ∧
    buildPharmacyFilters none (some false) none none none
      = some "pohotovost eq false" ∧
    buildPharmacyFilters none none (some false) none none
      = some "zasilkovyProdej eq false" ∧
    searchPharmaciesAction none none (some true) none none none
      ≠ PharmacySearchAction.badRequest ∧
    searchPharmaciesAction none none none (some true) none none
      ≠ PharmacySearchAction.badRequest := by
  decide

/-- C8: a document-chunk content field longer than 2000 characters is
normalised to its first 2000 characters followed by one ellipsis
character, so its length is exactly 2001; shorter content is returned
unchanged. -/
theorem C8_chunk_truncation (s : String) :
    (2000 < s.length →
      (formatDocEntry ⟨some s, none, none⟩).content = String.mk (s.data.take 2000) ++ "…" ∧
      (formatDocEntry ⟨some s, none, none⟩).content.length = 2001) ∧
    (s.length ≤ 2000 → (formatDocEntry ⟨some s, none, none⟩).content = s) := by
  constructor
  · intro hlong
    have hc : (formatDocEntry ⟨some s, none, none⟩).content
        = String.mk (s.data.take 2000) ++ "…" := by
      simp [formatDocEntry, hlong]
    refine ⟨hc, ?_⟩
    rw [hc, String.length_append, length_mk, List.length_take]
    rw [strLength_data] at hlong
    rw [Nat.min_eq_left (le_of_lt hlong)]
    rfl
  · intro hshort
    simp [formatDocEntry, Nat.not_lt.mpr hshort]

/-- C8 witness: content of length 2500 comes out with length exactly
2001. -/
theorem C8_chunk_truncation_witness :
    (formatDocEntry ⟨some (String.mk (List.replicate 2500 'a')), none, none⟩).content.length
      = 2001 := by
  refine ((C8_chunk_truncation (String.mk (List.replicate 2500 'a'))).1 ?_).2
  rw [length_mk, List.length_replicate]
  norm_num

/-- C10: the drug-detail path key is stripped and zero-padded to 7
characters before validation; a stripped key that is all digits with at
most 7 of them is looked up under its zero-padded 7-character form
(whose length is exactly 7), and a key that is not all digits after
padding is answered with 400 without any backend lookup. -/
theorem C10_detail_key (kod : String) :
    (pyIsDigitStr (pyStrip kod) = true → (pyStrip kod).length ≤ 7 →
      getDrugDetailAction kod
        = DetailAction.lookupKey
            (String.mk (List.replicate (7 - (pyStrip kod).length) '0' ++ (pyStrip kod).data)) ∧
      (String.mk (List.replicate (7 - (pyStrip kod).length) '0'
        ++ (pyStrip kod).data)).length = 7) ∧
    (pyIsDigitStr (pyZfill (pyStrip kod) 7) = false →
      getDrugDetailAction kod = DetailAction.badRequest) := by
  constructor
  · intro hd hlen
    have hd2 := hd
    rw [pyIsDigitStr, Bool.and_eq_true] at hd2
    obtain ⟨hne', hall⟩ := hd2
    have hne : (pyStrip kod).data ≠ [] := by
      intro h0
      rw [h0] at hne'
      simp at hne'
    have hz : pyZfill (pyStrip kod) 7
        = String.mk (List.replicate (7 - (pyStrip kod).length) '0' ++ (pyStrip kod).data) := by
      by_cases h7 : 7 ≤ (pyStrip kod).length
      · have h77 : (pyStrip kod).length = 7 := le_antisymm hlen h7
        rw [pyZfill, if_pos h7, h77]
        norm_num
      · rw [pyZfill, if_neg h7]
        obtain ⟨c, rest, hteq⟩ : ∃ c rest, (pyStrip kod).data = c :: rest := by
          cases hdata : (pyStrip kod).data with
          | nil => exact absurd hdata hne
          | cons c rest => exact ⟨c, rest, rfl⟩
        have hcdig : pyIsDigit c = true :=
          List.all_eq_true.mp hall c (hteq ▸ List.mem_cons_self c rest)
        have h1 : c ≠ '+' := by
          rintro rfl
          exact absurd hcdig (by decide)
        have h2 : c ≠ '-' := by
          rintro rfl
          exact absurd hcdig (by decide)
        rw [hteq]
        simp [h1, h2]
    have hkeydig : pyIsDigitStr (String.mk (List.replicate (7 - (pyStrip kod).length) '0'
        ++ (pyStrip kod).data)) = true := by
      rw [pyIsDigitStr, Bool.and_eq_true]
      constructor
      · have hnil : List.replicate (7 - (pyStrip kod).length) '0' ++ (pyStrip kod).data ≠ [] := by
          intro hemp
          exact hne (List.append_eq_nil.mp hemp).2
        simpa using hnil
      · rw [List.all_eq_true]
        intro c hc
        rcases List.mem_append.mp hc with hrep | hdat
        · rw [List.eq_of_mem_replicate hrep]
          decide
        · exact List.all_eq_true.mp hall c hdat
    constructor
    · rw [getDrugDetailAction]
      simp only [hz, hkeydig]
      rfl
    · rw [length_mk, List.length_append, List.length_replicate, ← strLength_data]
      omega
  · intro hbad
    rw [getDrugDetailAction]
    simp only [hbad]
    rfl

/-- C10 witness: `" 123 "` is looked up under `"0000123"`; `"12a"` gets
the 400 answer. -/
theorem C10_detail_key_witness :
    getDrugDetailAction " 123 " = DetailAction.lookupKey "0000123" ∧
    getDrugDetailAction "12a" = DetailAction.badRequest := by
  constructor
  · have h := ((C10_detail_key " 123 ").1 (by decide) (by decide)).1
    rw [h]
    decide
  · exact (C10_detail_key "12a").2 (by decide)
